import Mathlib

/-!
Verification development for the osmpdrum frontend (React/TypeScript).

The code is shallowly embedded: JS numbers are modelled as `ℚ`, with
`Option ℚ` where an IEEE non-finite value (`NaN`) is reachable; JS strings
are `List Char`; React state updates become pure functions on explicit
state records.  Two variants of the application exist in the sources:
the browser-only one (`App.tsx`, Web Audio playback, namespace `Browser`)
and the Rust-backed one (the later `App.tsx` revisions in the unnamed
parts, namespace `Rustapp`).
-/

namespace Osmp

/-! ### Peak extraction

The downsampling loop appears verbatim twice: in `WaveformDisplay`
(`samples = Math.min(500, width)`) and in `handleFileLoadToPad`
(`samples = 200`).  `blockSize = Math.floor(rawData.length / samples)`;
each entry pushed is `sum / blockSize` where `sum` adds
`Math.abs(rawData[blockSize * i + j])` for `j < blockSize`.
-/

/-- JS division of a finite float by a natural count.  When the count is `0`
the numerator here is always the empty sum `0`, so the JS result is the
non-finite `0 / 0 = NaN`, modelled as `none`. -/
def jsDiv (a : ℚ) (n : ℕ) : Option ℚ :=
  if n = 0 then none else some (a / n)

/-- The downsampling loop shared by `WaveformDisplay` and
`handleFileLoadToPad`.  `rawData.getD _ 0` is only consulted in bounds:
when `blockSize ≥ 1` every index `blockSize * i + j` with `i < samples`,
`j < blockSize` is `< rawData.length`. -/
def downsamplePeaks (rawData : List ℚ) (samples : ℕ) : List (Option ℚ) :=
  let blockSize := rawData.length / samples
  (List.range samples).map (fun i =>
    let blockStart := blockSize * i
    let sum := ((List.range blockSize).map (fun j => |rawData.getD (blockStart + j) 0|)).sum
    jsDiv sum blockSize)

/-- Peaks drawn by `WaveformDisplay` (part_001): `samples = Math.min(500, width)`
where `width` is the display width in pixels. -/
def waveformPeaks (rawData : List ℚ) (width : ℕ) : List (Option ℚ) :=
  downsamplePeaks rawData (min 500 width)

/-- Peaks computed by `handleFileLoadToPad` (part_002) before normalization:
a fixed `samples = 200`. -/
def padDropPeaks (rawData : List ℚ) : List (Option ℚ) :=
  downsamplePeaks rawData 200

/-- JS `Math.max` on two values, propagating `NaN`. -/
def jsMax : Option ℚ → Option ℚ → Option ℚ
  | some a, some b => some (max a b)
  | _, _ => none

/-- JS division of two float values: `NaN` operands propagate; a zero
divisor is unreachable here (the divisor is `Math.max(…, 0.001)`). -/
def jsDivOpt : Option ℚ → Option ℚ → Option ℚ
  | some a, some b => if b = 0 then none else some (a / b)
  | _, _ => none

/-- The normalization step of `handleFileLoadToPad`:
`max = Math.max(...peaks, 0.001); peaks.map(p => p / max)`. -/
def normalizePeaks (peaks : List (Option ℚ)) : List (Option ℚ) :=
  let m := peaks.foldr jsMax (some (1 / 1000))
  peaks.map (fun p => jsDivOpt p m)

/-- The `waveformPeaks` value stored on a pad by `handleFileLoadToPad`. -/
def storedPadPeaks (rawData : List ℚ) : List (Option ℚ) :=
  normalizePeaks (padDropPeaks rawData)

/-- Modelled from the words of claim C1, for refinement comparison only (the
source computes neither this block count nor this block size): partition
the channel into `min 500 frameCount` blocks of size
`⌈frameCount / peakCount⌉` and record the mean absolute amplitude of each
block. -/
def specClaimPeaks (rawData : List ℚ) : List ℚ :=
  let frameCount := rawData.length
  let peakCount := min 500 frameCount
  let blockSize := (frameCount + peakCount - 1) / peakCount
  (List.range peakCount).map (fun i =>
    let blk := (rawData.drop (blockSize * i)).take blockSize
    ((blk.map (fun x => |x|)).sum) / blk.length)

/-! ### Envelope gain automation

`playPad` in `App.tsx` schedules, at trigger time `now`:
`gain.setValueAtTime(0, now)`,
`gain.linearRampToValueAtTime(1, now + attack/1000)`,
`gain.linearRampToValueAtTime(sustain/100, now + attack/1000 + decay/1000)`.
`envGain` is the resulting Web Audio automation curve as a function of the
time `t ≥ 0` since `now`; coincident events resolve in insertion order, so
with `attackMs = decayMs = 0` the value from `t = 0` on is the final ramp
target `sustainPct / 100`. -/
def envGain (attackMs decayMs sustainPct t : ℚ) : ℚ :=
  let attackTime := attackMs / 1000
  let decayTime := decayMs / 1000
  let sustainLevel := sustainPct / 100
  if t < attackTime then t / attackTime
  else if t < attackTime + decayTime then
    1 + (t - attackTime) * (sustainLevel - 1) / decayTime
  else sustainLevel

/-! ### String handling for pad labels -/

/-- JS `fileName.replace` with the regex `\.[^/.]+$` (replacement: the empty string) from `handleFileLoad` in
`App.tsx`: strip a final dot-extension made of one or more characters none
of which is a dot or a slash. -/
def dropBrowserExt (s : List Char) : List Char :=
  let r := s.reverse
  let ext := r.takeWhile (fun c => c ≠ '.')
  if ext.length < r.length ∧ ext ≠ [] ∧ ¬ ext.contains '/' then
    (r.drop (ext.length + 1)).reverse
  else s

/-- JS `name.replace` with the case-insensitive regex `\.(wav|mp3|flac|ogg)$` (replacement: the empty string) from the Rust-backed
`handleDrop` and `handleFileLoadToPad`. -/
def dropAudioExt (s : List Char) : List Char :=
  let low := s.map Char.toLower
  let exts := [".wav".toList, ".mp3".toList, ".flac".toList, ".ogg".toList]
  match exts.find? (fun e => e.isSuffixOf low) with
  | some e => s.take (s.length - e.length)
  | none => s

/-- JS `path.split` on slash or backslash, then `.pop()`, falling back to the string "SAMPLE" when empty, from `handleDrop`. -/
def basename (path : List Char) : List Char :=
  let last := (path.reverse.takeWhile (fun c => ¬ (c = '/' ∨ c = '\\'))).reverse
  if last = [] then "SAMPLE".toList else last

end Osmp

namespace Osmp.Browser

/-! ### The browser-only application (`App.tsx`) -/

/-- Decoded audio buffer as seen by `App.tsx` (`AudioBuffer`). -/
structure AudioBuf where
  channelData : List ℚ
  duration : ℚ
deriving Repr, DecidableEq

/-- Pad state of the browser app (`types.ts`, `PadData`). -/
structure PadData where
  id : ℕ
  label : List Char
  isMuted : Bool
  isSolo : Bool
  isActive : Bool
  audioBuffer : Option AudioBuf
  fileName : Option (List Char)
deriving Repr, DecidableEq

/-- Envelope knob state (`envelope` in `App.tsx`): attack/decay in ms,
sustain in percent; the `Knob` component clamps each to `[0, 100]`. -/
structure Envelope where
  attack : ℚ
  decay : ℚ
  sustain : ℚ
deriving Repr, DecidableEq

/-- The single live playback voice (`currentSourceRef` plus the gain
automation scheduled on its `GainNode`).  The three envelope fields are the
values read from `envelope` at trigger time — the ramps are scheduled from
them immediately, so they are captured by value. -/
structure Voice where
  padId : ℕ
  buffer : AudioBuf
  attackMs : ℚ
  decayMs : ℚ
  sustainPct : ℚ
deriving Repr, DecidableEq

/-- Application state of `App.tsx` relevant to playback: the pad list, the
envelope knobs, whether `audioContextRef.current` is non-null, and the at
most one live source. -/
structure AppState where
  pads : List PadData
  envelope : Envelope
  audioCtxOk : Bool
  currentSource : Option Voice
deriving Repr, DecidableEq

/-- Gain trajectory scheduled for a voice at trigger time. -/
def voiceGain (v : Voice) (t : ℚ) : ℚ :=
  envGain v.attackMs v.decayMs v.sustainPct t

/-- Embedding of `playPad` (`App.tsx`): guard
`if (!pad.audioBuffer || !audioContextRef.current || pad.isMuted) return;`
then stop any current source and create the new one, scheduling the
envelope from the current knob values. -/
def playPad (st : AppState) (padId : ℕ) : AppState :=
  match st.pads[padId]? with
  | none => st
  | some pad =>
    match pad.audioBuffer with
    | none => st
    | some buf =>
      if !st.audioCtxOk then st
      else if pad.isMuted then st
      else
        let v : Voice :=
          { padId := padId, buffer := buf,
            attackMs := st.envelope.attack,
            decayMs := st.envelope.decay,
            sustainPct := st.envelope.sustain }
        { st with currentSource := some v }

/-- Number of live voices for a pad: the app holds at most one source
globally (`currentSourceRef`). -/
def liveVoicesForPad (st : AppState) (p : ℕ) : ℕ :=
  match st.currentSource with
  | some v => if v.padId = p then 1 else 0
  | none => 0

/-- Embedding of the Attack knob onChange handler, which copies the envelope
record replacing the attack field. -/
def setAttack (st : AppState) (v : ℚ) : AppState :=
  { st with envelope := { st.envelope with attack := v } }

/-- Embedding of the Decay knob onChange handler. -/
def setDecay (st : AppState) (v : ℚ) : AppState :=
  { st with envelope := { st.envelope with decay := v } }

/-- Embedding of the Sustain knob onChange handler. -/
def setSustain (st : AppState) (v : ℚ) : AppState :=
  { st with envelope := { st.envelope with sustain := v } }

/-- Label derivation in `handleFileLoad` (`App.tsx`):
strip the final extension, `toUpperCase()`, `substring(0, 10)`. -/
def labelOfFileName (fileName : List Char) : List Char :=
  ((dropBrowserExt fileName).map Char.toUpper).take 10

end Osmp.Browser

namespace Osmp.Rustapp

/-! ### The Rust-backed application (later `App.tsx` revisions) -/

/-- Pad state of the Rust-backed app (`types.ts`, later `PadData`). -/
structure PadData where
  id : ℕ
  label : List Char
  isMuted : Bool
  isSolo : Bool
  isActive : Bool
  filePath : Option (List Char)
  waveformPeaks : Option (List (Option ℚ))
  duration : ℚ
  startPoint : ℚ
  endPoint : ℚ
deriving Repr, DecidableEq

/-- Which flag a pad toggle targets. -/
inductive ToggleType
  | mute
  | solo
deriving Repr, DecidableEq

/-- Embedding of `handlePadToggle`: toggle exactly the requested flag of
the pad whose `id` matches, spread-copying every other field. -/
def handlePadToggle (pads : List PadData) (id : ℕ) (ty : ToggleType) :
    List PadData :=
  pads.map (fun p =>
    if p.id ≠ id then p
    else { p with
      isMuted := if ty = ToggleType.mute then !p.isMuted else p.isMuted,
      isSolo := if ty = ToggleType.solo then !p.isSolo else p.isSolo })

/-- Embedding of `handleStartPointChange`: set `startPoint` of the selected
pad to `value`, unconditionally. -/
def handleStartPointChange (pads : List PadData) (selectedPadId : ℕ)
    (value : ℚ) : List PadData :=
  pads.map (fun p =>
    if p.id = selectedPadId then { p with startPoint := value } else p)

/-- Embedding of `handleEndPointChange`. -/
def handleEndPointChange (pads : List PadData) (selectedPadId : ℕ)
    (value : ℚ) : List PadData :=
  pads.map (fun p =>
    if p.id = selectedPadId then { p with endPoint := value } else p)

/-- The `startPoint` prop handed to `WaveformDisplay`:
`selectedPad?.startPoint || 0` (for a finite number `x || 0 = x`). -/
def selStartProp (pads : List PadData) (sel : ℕ) : ℚ :=
  match pads[sel]? with
  | some p => p.startPoint
  | none => 0

/-- The `endPoint` prop handed to `WaveformDisplay`:
`selectedPad?.endPoint || 1`, which turns a zero endpoint into `1`. -/
def selEndProp (pads : List PadData) (sel : ℕ) : ℚ :=
  match pads[sel]? with
  | some p => if p.endPoint = 0 then 1 else p.endPoint
  | none => 1

/-- Mouse position normalization in `handleMouseMove`
(`WaveformDisplay.tsx`): `Math.max(0, Math.min(1, x / (rect.width - 32)))`
where `x = e.clientX - rect.left - 16`. -/
def clampedX (x width : ℚ) : ℚ :=
  max 0 (min 1 (x / (width - 32)))

/-- Dragging the start marker: `handleMouseMove` calls
`onStartPointChange(Math.min(normalizedX, endPoint - 0.01))`, which
`handleStartPointChange` applies to the selected pad. -/
def dragStartMarker (pads : List PadData) (sel : ℕ) (x width : ℚ) :
    List PadData :=
  handleStartPointChange pads sel
    (min (clampedX x width) (selEndProp pads sel - 1 / 100))

/-- Dragging the end marker: `handleMouseMove` calls
`onEndPointChange(Math.max(normalizedX, startPoint + 0.01))`. -/
def dragEndMarker (pads : List PadData) (sel : ℕ) (x width : ℚ) :
    List PadData :=
  handleEndPointChange pads sel
    (max (clampedX x width) (selStartProp pads sel + 1 / 100))

/-- The IPC command `audioEngine.play` sends to the backend. -/
structure PlayCmd where
  pad_id : ℕ
  file_path : List Char
  volume : ℚ
  pan : ℚ
deriving Repr, DecidableEq

/-- Embedding of the Rust-backed `playPad`: the command sent to the
backend, or `none` when the guard `if (!pad.filePath || pad.isMuted)
return;` aborts (an out-of-range pad id, unreachable from the 0–31 id
range, would fault on property access and also sende no command). -/
def playPad (pads : List PadData) (padId : ℕ) : Option PlayCmd :=
  match pads[padId]? with
  | none => none
  | some pad =>
    match pad.filePath with
    | none => none
    | some fp =>
      if pad.isMuted then none
      else some { pad_id := padId, file_path := fp, volume := 1, pan := 0 }

/-- Label derivation in the Rust-backed `handleDrop`:
take the basename of the path, strip a known audio extension,
`substring(0, 8).toUpperCase()`. -/
def labelFromPath (path : List Char) : List Char :=
  ((dropAudioExt (basename path)).take 8).map Char.toUpper

/-- A concrete loaded pad used by witnesses: id 0, trim `[0.2, 0.4]`. -/
def samplePad : PadData :=
  { id := 0, label := [], isMuted := false, isSolo := false,
    isActive := true, filePath := some "kick.wav".toList,
    waveformPeaks := none, duration := 1,
    startPoint := 1 / 5, endPoint := 2 / 5 }

/-- The `samplePad` with the mute flag set (and solo set, for the claim C3
solo-override scenario). -/
def mutedSoloPad : PadData :=
  { samplePad with isMuted := true, isSolo := true }

end Osmp.Rustapp

namespace Osmp.Browser

/-- A concrete browser-app state used by witnesses: one loaded pad, a live
voice for it, default envelope knobs. -/
def sampleState : AppState :=
  { pads := [{ id := 0, label := "KICK".toList, isMuted := false,
               isSolo := false, isActive := true,
               audioBuffer := some { channelData := [1, -1], duration := 1 },
               fileName := some "kick.wav".toList }],
    envelope := { attack := 30, decay := 50, sustain := 80 },
    audioCtxOk := true,
    currentSource := some
      { padId := 0, buffer := { channelData := [1, -1], duration := 1 },
        attackMs := 30, decayMs := 50, sustainPct := 80 } }

end Osmp.Browser

namespace Osmp

/-! ## Theorems -/

/-- Helper: the contiguous block read by the downsampling loop, expressed
as a `drop`/`take` sublist. -/
lemma take_drop_block_eq (d : List ℚ) (B i : ℕ) (h : B * i + B ≤ d.length) :
    (d.drop (B * i)).take B = (List.range B).map (fun j => d.getD (B * i + j) 0) := by
  apply List.ext_getElem?
  intro j
  by_cases hj : j < B
  · have hlen : B * i + j < d.length := by omega
    rw [List.getElem?_take, if_pos hj, List.getElem?_drop, List.getElem?_map,
        List.getElem?_range hj]
    simp [List.getD_eq_getElem?_getD, List.getElem?_eq_getElem hlen]
  · have h1 : (List.range B)[j]? = none := by
      rw [List.getElem?_eq_none]
      simpa using not_lt.mp hj
    rw [List.getElem?_take, if_neg hj, List.getElem?_map, h1]
    rfl

/-- Helper: the downsampling loop always emits exactly `samples` entries. -/
lemma downsamplePeaks_length (e : List ℚ) (n : ℕ) :
    (downsamplePeaks e n).length = n := by
  simp only [downsamplePeaks, List.length_map, List.length_range]

/-- Helper: the normalization step preserves the number of peaks. -/
lemma normalizePeaks_length (l : List (Option ℚ)) :
    (normalizePeaks l).length = l.length := by
  simp only [normalizePeaks, List.length_map]

/-- Helper: the stored pad peaks always number exactly 200. -/
lemma storedPadPeaks_length (e : List ℚ) : (storedPadPeaks e).length = 200 := by
  simp only [storedPadPeaks, padDropPeaks, normalizePeaks_length, downsamplePeaks_length]

/-- Claim C1, counterexample: a decoded sample of 1000 frames dropped on a
pad stores 200 peaks, while the partition scheme the claim states
(`min 500 frameCount` blocks) would produce 500. -/
theorem storedPadPeaks_length_ne_claim :
    (storedPadPeaks (List.replicate 1000 (0 : ℚ))).length = 200 ∧
    (specClaimPeaks (List.replicate 1000 (0 : ℚ))).length = 500 ∧
    (200 : ℕ) ≠ 500 := by
  refine ⟨storedPadPeaks_length _, ?_, by decide⟩
  simp only [specClaimPeaks, List.length_map, List.length_range, List.length_replicate]
  decide

/-- Claim C1 (amended): the peak counts are PCM-independent —
`min 500 width` in the waveform-display path and a fixed 200 in the
pad-drop path, both at most 500 — and with block size
`⌊frameCount / peakCount⌋` each well-defined peak is the mean absolute
amplitude of its contiguous block. -/
theorem peaks_blockCount_floor_mean (d : List ℚ) (w : ℕ) :
    ((waveformPeaks d w).length = min 500 w ∧ (waveformPeaks d w).length ≤ 500) ∧
    ((storedPadPeaks d).length = 200 ∧ (storedPadPeaks d).length ≤ 500) ∧
    (∀ d' : List ℚ, (waveformPeaks d' w).length = (waveformPeaks d w).length ∧
        (storedPadPeaks d').length = (storedPadPeaks d).length) ∧
    (∀ s i : ℕ, 1 ≤ d.length / s → i < s →
        (downsamplePeaks d s)[i]? = some (some
          ((((d.drop (d.length / s * i)).take (d.length / s)).map (fun x => |x|)).sum
             / ((d.length / s : ℕ) : ℚ)))) := by
  refine ⟨⟨downsamplePeaks_length d _, ?_⟩, ⟨storedPadPeaks_length d, ?_⟩,
    fun d' => ⟨?_, ?_⟩, ?_⟩
  · rw [show waveformPeaks d w = downsamplePeaks d (min 500 w) from rfl,
      downsamplePeaks_length]
    exact min_le_left _ _
  · rw [storedPadPeaks_length]
    norm_num
  · rw [show waveformPeaks d' w = downsamplePeaks d' (min 500 w) from rfl,
      show waveformPeaks d w = downsamplePeaks d (min 500 w) from rfl,
      downsamplePeaks_length, downsamplePeaks_length]
  · rw [storedPadPeaks_length, storedPadPeaks_length]
  · intro s i hB hi
    have hle : d.length / s * i + d.length / s ≤ d.length := by
      have h1 : d.length / s * i + d.length / s = d.length / s * (i + 1) := by ring
      have h2 : d.length / s * (i + 1) ≤ d.length / s * s :=
        Nat.mul_le_mul_left _ hi
      have h3 : d.length / s * s ≤ d.length := Nat.div_mul_le_self _ _
      omega
    have hblk := take_drop_block_eq d (d.length / s) i hle
    have hne : ¬ d.length / s = 0 := by omega
    simp only [downsamplePeaks, List.getElem?_map, List.getElem?_range hi,
      Option.map_some', jsDiv, if_neg hne]
    rw [hblk, List.map_map]
    rfl

/-- Witness for claim C1 at concrete inputs. -/
theorem peaks_blockCount_floor_mean_witness :
    (waveformPeaks [(1 : ℚ), 2, 3, 4] 800).length = min 500 800 ∧
    (1 : ℕ) ≤ [(1 : ℚ), 2, 3, 4].length / 2 ∧ (0 : ℕ) < 2 ∧
    (downsamplePeaks [(1 : ℚ), 2, 3, 4] 2)[0]? = some (some
      (((([(1 : ℚ), 2, 3, 4].drop ([(1 : ℚ), 2, 3, 4].length / 2 * 0)).take
          ([(1 : ℚ), 2, 3, 4].length / 2)).map (fun x => |x|)).sum
         / (([(1 : ℚ), 2, 3, 4].length / 2 : ℕ) : ℚ))) :=
  ⟨(peaks_blockCount_floor_mean [(1 : ℚ), 2, 3, 4] 800).1.1, by decide, by decide,
    (peaks_blockCount_floor_mean [(1 : ℚ), 2, 3, 4] 800).2.2.2 2 0 (by decide) (by decide)⟩

/-- Claim C9: peak extraction is deterministic — two runs on the same
channel data with the same block count give identical peak sequences. -/
theorem downsamplePeaks_deterministic (d1 d2 : List ℚ) (s1 s2 : ℕ)
    (hd : d1 = d2) (hs : s1 = s2) :
    downsamplePeaks d1 s1 = downsamplePeaks d2 s2 := by
  rw [hd, hs]

/-- Witness for claim C9 at concrete inputs. -/
theorem downsamplePeaks_deterministic_witness :
    [(1 : ℚ), 2] = [(1 : ℚ), 2] ∧ (2 : ℕ) = 2 ∧
    downsamplePeaks [(1 : ℚ), 2] 2 = downsamplePeaks [(1 : ℚ), 2] 2 :=
  ⟨rfl, rfl, downsamplePeaks_deterministic [(1 : ℚ), 2] [(1 : ℚ), 2] 2 2 rfl rfl⟩

/-- Claim C10: when the sample has fewer frames than the requested block
count, the floored block size is 0 and every peak is the non-finite
quotient 0/0 (NaN, modelled `none`) — in particular in the pad-drop path
(200 blocks) and the waveform path (`min 500 width` blocks). -/
theorem peaks_nan_when_short_sample (d : List ℚ) (s w : ℕ) :
    (d.length < s → d.length / s = 0 ∧
        downsamplePeaks d s = List.replicate s none) ∧
    (d.length < 200 → padDropPeaks d = List.replicate 200 none) ∧
    (d.length < min 500 w → waveformPeaks d w = List.replicate (min 500 w) none) := by
  have key : ∀ n, d.length < n → downsamplePeaks d n = List.replicate n none := by
    intro n hn
    have h0 : d.length / n = 0 := Nat.div_eq_of_lt hn
    simp only [downsamplePeaks, h0, jsDiv, eq_self_iff_true, if_true]
    rw [List.map_const', List.length_range]
  exact ⟨fun h => ⟨Nat.div_eq_of_lt h, key s h⟩, fun h => key 200 h, fun h => key _ h⟩

/-- Witness for claim C10 at a concrete short sample. -/
theorem peaks_nan_witness :
    [(1 : ℚ)].length < 5 ∧ downsamplePeaks [(1 : ℚ)] 5 = List.replicate 5 none :=
  ⟨by decide, ((peaks_nan_when_short_sample [(1 : ℚ)] 5 0).1 (by decide)).2⟩

end Osmp

namespace Osmp

/-- Claim C2, counterexample: with prior trim `start = 0.2 < end = 0.4`,
dragging the start marker to normalized position 0.6 (which with the
unchanged end 0.4 would invert the ordering) is not rejected as a no-op —
the start point is clamped to `end - 0.01 = 0.39`, a changed value. -/
theorem trim_invert_clamped_not_noop :
    Rustapp.samplePad.startPoint = 1 / 5 ∧ Rustapp.samplePad.endPoint = 2 / 5 ∧
    Rustapp.clampedX 60 132 = 3 / 5 ∧
    (Rustapp.dragStartMarker [Rustapp.samplePad] 0 60 132).map
        Rustapp.PadData.startPoint = [39 / 100] ∧
    ((39 : ℚ) / 100) ≠ 1 / 5 := by
  refine ⟨rfl, rfl, by norm_num [Rustapp.clampedX], ?_, by norm_num⟩
  show [min (Rustapp.clampedX 60 132) _] = _
  norm_num [Rustapp.clampedX, Rustapp.selEndProp, Rustapp.samplePad]

end Osmp

namespace Osmp

/-- Claim C2 (amended): a trim drag that would invert the ordering is
clamped rather than rejected — dragging the start marker sets the selected
pad start point to `min normalizedX (end - 0.01)` and dragging the end
marker sets its end point to `max normalizedX (start + 0.01)`; the
invariant `start < end` is preserved (for the start drag provided the
stored end point is nonzero, since a zero end point is displayed as 1),
every other field and every pad with a different id are unchanged. -/
theorem trim_drag_clamps_preserves_order (pads : List Rustapp.PadData)
    (sel : ℕ) (p : Rustapp.PadData) (x width : ℚ)
    (hp : pads[sel]? = some p) (hid : p.id = sel) :
    ((Rustapp.dragStartMarker pads sel x width)[sel]?.map
        Rustapp.PadData.startPoint
      = some (min (Rustapp.clampedX x width)
          ((if p.endPoint = 0 then 1 else p.endPoint) - 1 / 100))) ∧
    ((Rustapp.dragStartMarker pads sel x width)[sel]?.map
        Rustapp.PadData.endPoint = some p.endPoint) ∧
    ((Rustapp.dragStartMarker pads sel x width)[sel]?.map
        Rustapp.PadData.label = some p.label) ∧
    ((Rustapp.dragStartMarker pads sel x width)[sel]?.map
        Rustapp.PadData.filePath = some p.filePath) ∧
    (p.endPoint ≠ 0 →
      min (Rustapp.clampedX x width)
          ((if p.endPoint = 0 then 1 else p.endPoint) - 1 / 100) < p.endPoint) ∧
    ((Rustapp.dragEndMarker pads sel x width)[sel]?.map
        Rustapp.PadData.endPoint
      = some (max (Rustapp.clampedX x width) (p.startPoint + 1 / 100))) ∧
    ((Rustapp.dragEndMarker pads sel x width)[sel]?.map
        Rustapp.PadData.startPoint = some p.startPoint) ∧
    (p.startPoint < max (Rustapp.clampedX x width) (p.startPoint + 1 / 100)) ∧
    (∀ (k : ℕ) (q : Rustapp.PadData), pads[k]? = some q → q.id ≠ sel →
      (Rustapp.dragStartMarker pads sel x width)[k]? = some q ∧
      (Rustapp.dragEndMarker pads sel x width)[k]? = some q) := by
  have hse : Rustapp.selEndProp pads sel = if p.endPoint = 0 then 1 else p.endPoint := by
    simp [Rustapp.selEndProp, hp]
  have hss : Rustapp.selStartProp pads sel = p.startPoint := by
    simp [Rustapp.selStartProp, hp]
  have hstart : (Rustapp.dragStartMarker pads sel x width)[sel]?
      = some { p with startPoint := (min (Rustapp.clampedX x width)
          ((if p.endPoint = 0 then 1 else p.endPoint) - 1 / 100)) } := by
    simp [Rustapp.dragStartMarker, Rustapp.handleStartPointChange,
      List.getElem?_map, hp, hid, hse]
  have hend : (Rustapp.dragEndMarker pads sel x width)[sel]?
      = some { p with endPoint := (max (Rustapp.clampedX x width)
          (p.startPoint + 1 / 100)) } := by
    simp [Rustapp.dragEndMarker, Rustapp.handleEndPointChange,
      List.getElem?_map, hp, hid, hss]
  refine ⟨by rw [hstart]; rfl, by rw [hstart]; rfl, by rw [hstart]; rfl,
    by rw [hstart]; rfl, ?_, by rw [hend]; rfl, by rw [hend]; rfl, ?_, ?_⟩
  · intro hne
    rw [if_neg hne]
    calc min (Rustapp.clampedX x width) (p.endPoint - 1 / 100)
        ≤ p.endPoint - 1 / 100 := min_le_right _ _
      _ < p.endPoint := by linarith
  · calc p.startPoint < p.startPoint + 1 / 100 := by linarith
      _ ≤ max (Rustapp.clampedX x width) (p.startPoint + 1 / 100) := le_max_right _ _
  · intro k q hq hqid
    constructor
    · simp [Rustapp.dragStartMarker, Rustapp.handleStartPointChange,
        List.getElem?_map, hq, hqid]
    · simp [Rustapp.dragEndMarker, Rustapp.handleEndPointChange,
        List.getElem?_map, hq, hqid]

/-- Witness for claim C2 at a concrete pad and drag position. -/
theorem trim_drag_clamps_witness :
    ([Rustapp.samplePad][0]? = some Rustapp.samplePad) ∧
    (Rustapp.samplePad.id = 0) ∧
    ((Rustapp.dragStartMarker [Rustapp.samplePad] 0 60 132)[0]?.map
        Rustapp.PadData.startPoint
      = some (min (Rustapp.clampedX 60 132)
          ((if Rustapp.samplePad.endPoint = 0 then 1
            else Rustapp.samplePad.endPoint) - 1 / 100))) :=
  ⟨rfl, rfl, (trim_drag_clamps_preserves_order [Rustapp.samplePad] 0
    Rustapp.samplePad 60 132 rfl rfl).1⟩

/-- Claim C3, counterexample: a pad with an assigned sample that is muted
and has the solo flag set produces no voice on Play — the solo flag does
not override the mute guard. -/
theorem muted_solo_pad_produces_no_voice :
    Rustapp.mutedSoloPad.isMuted = true ∧ Rustapp.mutedSoloPad.isSolo = true ∧
    Rustapp.mutedSoloPad.filePath ≠ none ∧
    Rustapp.playPad [Rustapp.mutedSoloPad] 0 = none := by
  refine ⟨rfl, rfl, ?_, rfl⟩
  simp [Rustapp.mutedSoloPad, Rustapp.samplePad]

/-- Claim C3 (amended): Play is a silent no-op exactly when the pad has no
assigned sample or is muted; the solo flag is never consulted — setting it
on every pad changes nothing about the emitted command. -/
theorem playPad_noop_iff_no_sample_or_muted (pads : List Rustapp.PadData)
    (i : ℕ) (p : Rustapp.PadData) (hp : pads[i]? = some p) :
    (Rustapp.playPad pads i = none ↔ (p.filePath = none ∨ p.isMuted = true)) ∧
    (p.isMuted = true → Rustapp.playPad pads i = none) ∧
    (∀ b, Rustapp.playPad (pads.map (fun q => { q with isSolo := b })) i
        = Rustapp.playPad pads i) := by
  have hiff : Rustapp.playPad pads i = none ↔ (p.filePath = none ∨ p.isMuted = true) := by
    unfold Rustapp.playPad
    rw [hp]
    cases hf : p.filePath with
    | none => simp [hf]
    | some fp => cases hm : p.isMuted <;> simp [hf, hm]
  refine ⟨hiff, fun hm => hiff.mpr (Or.inr hm), ?_⟩
  intro b
  unfold Rustapp.playPad
  rw [List.getElem?_map, hp, Option.map_some']

/-- Witness for claim C3 at a concrete unmuted loaded pad. -/
theorem playPad_noop_witness :
    ([Rustapp.samplePad][0]? = some Rustapp.samplePad) ∧
    ¬ (Rustapp.playPad [Rustapp.samplePad] 0 = none ∧
        ¬ (Rustapp.samplePad.filePath = none ∨ Rustapp.samplePad.isMuted = true)) :=
  ⟨rfl, fun h => h.2
    ((playPad_noop_iff_no_sample_or_muted [Rustapp.samplePad] 0
      Rustapp.samplePad rfl).1.mp h.1)⟩

end Osmp

namespace Osmp

/-- Claim C4, counterexample: in the browser path (`handleFileLoad`) the
label of the file named abcdefghij.wav is the 10-character ABCDEFGHIJ —
longer than the 8 characters the claim allows. -/
theorem browser_label_exceeds_eight_chars :
    Browser.labelOfFileName "abcdefghij.wav".toList = "ABCDEFGHIJ".toList ∧
    (Browser.labelOfFileName "abcdefghij.wav".toList).length = 10 ∧
    ¬ (Browser.labelOfFileName "abcdefghij.wav".toList).length ≤ 8 := by
  refine ⟨by decide, by decide, by decide⟩

/-- Claim C4 (amended): the browser path strips the final extension,
uppercases and truncates to at most 10 characters; the OS-drop path strips
only a known audio extension from the basename, truncates to 8 and
uppercases — which, uppercasing being per character, equals uppercasing
first and truncating to at most 8. -/
theorem label_uppercase_truncation (f path : List Char) :
    Browser.labelOfFileName f = ((dropBrowserExt f).take 10).map Char.toUpper ∧
    (Browser.labelOfFileName f).length ≤ 10 ∧
    Rustapp.labelFromPath path
      = ((dropAudioExt (basename path)).map Char.toUpper).take 8 ∧
    (Rustapp.labelFromPath path).length ≤ 8 := by
  refine ⟨?_, ?_, ?_, ?_⟩
  · rw [Browser.labelOfFileName, List.map_take]
  · rw [Browser.labelOfFileName, List.length_take]
    exact min_le_left _ _
  · rw [Rustapp.labelFromPath, List.map_take]
  · rw [Rustapp.labelFromPath, List.length_map, List.length_take]
    exact min_le_left _ _

/-- Witness for claim C4 at concrete file names. -/
theorem label_uppercase_truncation_witness :
    Browser.labelOfFileName "kick.wav".toList
      = ((dropBrowserExt "kick.wav".toList).take 10).map Char.toUpper ∧
    (Rustapp.labelFromPath "C:\\samples\\Kick_Drum_Long.wav".toList).length ≤ 8 :=
  ⟨(label_uppercase_truncation "kick.wav".toList
      "C:\\samples\\Kick_Drum_Long.wav".toList).1,
   (label_uppercase_truncation "kick.wav".toList
      "C:\\samples\\Kick_Drum_Long.wav".toList).2.2.2⟩

/-- Claim C5, counterexample: with attackMs = 0, decayMs = 0 and
sustainPercent = 50, the scheduled gain at the first instant is the
sustain level 0.5, not 1 — both zero-length ramps collapse onto the
trigger time and the last one wins. -/
theorem zero_attack_zero_decay_gain_not_one :
    envGain 0 0 50 0 = 1 / 2 ∧ ((1 : ℚ) / 2) ≠ 1 := by
  constructor
  · norm_num [envGain]
  · norm_num

/-- Claim C5 (amended): the scheduled gain is monotonically non-decreasing
during Attack, monotonically non-increasing during Decay (for sustain at
most 100 percent), constant at sustainPercent/100 during Sustain, and
attackMs = 0 gives gain 1 from the first instant provided decayMs > 0
(with decayMs = 0 as well, the gain is sustainPercent/100 immediately). -/
theorem envGain_phase_monotonicity :
    (∀ A D S t1 t2 : ℚ, 0 ≤ t1 → t1 ≤ t2 → t2 < A / 1000 →
        envGain A D S t1 ≤ envGain A D S t2) ∧
    (∀ A D S t1 t2 : ℚ, S ≤ 100 → A / 1000 ≤ t1 → t1 ≤ t2 →
        t2 < A / 1000 + D / 1000 → envGain A D S t2 ≤ envGain A D S t1) ∧
    (∀ A D S t : ℚ, 0 ≤ D → A / 1000 + D / 1000 ≤ t →
        envGain A D S t = S / 100) ∧
    (∀ D S : ℚ, 0 < D → envGain 0 D S 0 = 1) := by
  refine ⟨?_, ?_, ?_, ?_⟩
  · intro A D S t1 t2 h0 h12 h2
    have h1 : t1 < A / 1000 := lt_of_le_of_lt h12 h2
    have hA : 0 < A / 1000 := lt_of_le_of_lt h0 h1
    rw [envGain, envGain, if_pos h1, if_pos h2]
    exact div_le_div_of_nonneg_right h12 hA.le
  · intro A D S t1 t2 hS hA1 h12 h2
    have h1lt : t1 < A / 1000 + D / 1000 := lt_of_le_of_lt h12 h2
    have hD : 0 < D / 1000 := by linarith
    have hn1 : ¬ t1 < A / 1000 := not_lt.mpr hA1
    have hn2 : ¬ t2 < A / 1000 := not_lt.mpr (le_trans hA1 h12)
    rw [envGain, envGain, if_neg hn1, if_neg hn2, if_pos h1lt, if_pos h2]
    have hs1 : S / 100 - 1 ≤ 0 := by linarith
    have h3 : (t2 - A / 1000) * (S / 100 - 1) ≤ (t1 - A / 1000) * (S / 100 - 1) :=
      mul_le_mul_of_nonpos_right (by linarith) hs1
    have h4 : (t2 - A / 1000) * (S / 100 - 1) / (D / 1000)
        ≤ (t1 - A / 1000) * (S / 100 - 1) / (D / 1000) :=
      div_le_div_of_nonneg_right h3 hD.le
    linarith
  · intro A D S t h0D ht
    have hDD : (0 : ℚ) ≤ D / 1000 := by positivity
    have hn1 : ¬ t < A / 1000 := by push_neg; linarith
    have hn2 : ¬ t < A / 1000 + D / 1000 := by push_neg; linarith
    rw [envGain, if_neg hn1, if_neg hn2]
  · intro D S hD
    have h1 : ¬ (0 : ℚ) < 0 / 1000 := by norm_num
    have h2 : (0 : ℚ) < 0 / 1000 + D / 1000 := by positivity
    rw [envGain, if_neg h1, if_pos h2]
    norm_num

/-- Witness for claim C5 at the default knob settings. -/
theorem envGain_phase_monotonicity_witness :
    envGain 30 50 80 0 ≤ envGain 30 50 80 (1 / 100) ∧
    envGain 30 50 80 (7 / 100) ≤ envGain 30 50 80 (5 / 100) ∧
    envGain 30 50 80 1 = 80 / 100 ∧
    envGain 0 50 80 0 = 1 :=
  ⟨envGain_phase_monotonicity.1 30 50 80 0 (1 / 100) (by norm_num) (by norm_num)
      (by norm_num),
   envGain_phase_monotonicity.2.1 30 50 80 (5 / 100) (7 / 100) (by norm_num)
      (by norm_num) (by norm_num) (by norm_num),
   envGain_phase_monotonicity.2.2.1 30 50 80 1 (by norm_num) (by norm_num),
   envGain_phase_monotonicity.2.2.2 50 80 (by norm_num)⟩

end Osmp

namespace Osmp

/-- Claim C6: playing pad P while a voice for P is live leaves exactly one
live voice for P — the app holds at most one source globally, the old one
is stopped (`currentSourceRef.current.stop()`) and replaced by the newly
created source, which captures the current envelope knob values. -/
theorem retrigger_single_live_voice (st : Browser.AppState) (p : ℕ)
    (pad : Browser.PadData) (buf : Browser.AudioBuf) (v0 : Browser.Voice)
    (hp : st.pads[p]? = some pad) (hbuf : pad.audioBuffer = some buf)
    (hctx : st.audioCtxOk = true) (hmut : pad.isMuted = false)
    (_hv : st.currentSource = some v0) (_hvp : v0.padId = p) :
    (Browser.playPad st p).currentSource = some
      { padId := p, buffer := buf, attackMs := st.envelope.attack,
        decayMs := st.envelope.decay, sustainPct := st.envelope.sustain } ∧
    Browser.liveVoicesForPad (Browser.playPad st p) p = 1 := by
  have hplay : (Browser.playPad st p).currentSource = some
      { padId := p, buffer := buf, attackMs := st.envelope.attack,
        decayMs := st.envelope.decay, sustainPct := st.envelope.sustain } := by
    simp [Browser.playPad, hp, hbuf, hctx, hmut]
  refine ⟨hplay, ?_⟩
  simp [Browser.liveVoicesForPad, hplay]

/-- Witness for claim C6 at a concrete state with a live voice for pad 0. -/
theorem retrigger_single_live_voice_witness :
    Browser.sampleState.currentSource ≠ none ∧
    Browser.liveVoicesForPad (Browser.playPad Browser.sampleState 0) 0 = 1 :=
  ⟨by simp [Browser.sampleState],
   (retrigger_single_live_voice Browser.sampleState 0 _ _ _ rfl rfl rfl rfl rfl
      rfl).2⟩

/-- Claim C7: the envelope is captured by value at trigger time — changing
any envelope knob afterwards leaves the live voice and its scheduled gain
trajectory untouched, while a voice triggered after the change captures the
new value. -/
theorem envelope_captured_at_trigger (st : Browser.AppState) (p : ℕ)
    (pad : Browser.PadData) (buf : Browser.AudioBuf) (a d s : ℚ)
    (hp : st.pads[p]? = some pad) (hbuf : pad.audioBuffer = some buf)
    (hctx : st.audioCtxOk = true) (hmut : pad.isMuted = false) :
    ((Browser.setAttack (Browser.playPad st p) a).currentSource
        = (Browser.playPad st p).currentSource ∧
      (Browser.setDecay (Browser.playPad st p) d).currentSource
        = (Browser.playPad st p).currentSource ∧
      (Browser.setSustain (Browser.playPad st p) s).currentSource
        = (Browser.playPad st p).currentSource) ∧
    (∀ (v : Browser.Voice) (t : ℚ),
        (Browser.playPad st p).currentSource = some v →
        Browser.voiceGain v t
          = envGain st.envelope.attack st.envelope.decay st.envelope.sustain t) ∧
    (∀ v : Browser.Voice,
        (Browser.playPad (Browser.setAttack st a) p).currentSource = some v →
        v.attackMs = a) ∧
    (∀ v : Browser.Voice,
        (Browser.playPad (Browser.setDecay st d) p).currentSource = some v →
        v.decayMs = d) ∧
    (∀ v : Browser.Voice,
        (Browser.playPad (Browser.setSustain st s) p).currentSource = some v →
        v.sustainPct = s) := by
  refine ⟨⟨rfl, rfl, rfl⟩, ?_, ?_, ?_, ?_⟩
  · intro v t hv
    simp [Browser.playPad, hp, hbuf, hctx, hmut] at hv
    rw [Browser.voiceGain, ← hv]
  · intro v hv
    simp [Browser.playPad, Browser.setAttack, hp, hbuf, hctx, hmut] at hv
    rw [← hv]
  · intro v hv
    simp [Browser.playPad, Browser.setDecay, hp, hbuf, hctx, hmut] at hv
    rw [← hv]
  · intro v hv
    simp [Browser.playPad, Browser.setSustain, hp, hbuf, hctx, hmut] at hv
    rw [← hv]

/-- Witness for claim C7 at a concrete state. -/
theorem envelope_captured_at_trigger_witness :
    (Browser.setAttack (Browser.playPad Browser.sampleState 0) 99).currentSource
      = (Browser.playPad Browser.sampleState 0).currentSource :=
  (envelope_captured_at_trigger Browser.sampleState 0 _ _ 99 1 2 rfl rfl rfl
    rfl).1.1

/-- Claim C8: toggling mute or solo touches only the requested flag of the
pad with the given id — the other flag, the label, the trim points, the
assigned sample, the cached peaks, the duration and every other pad are
unchanged — and both flags can be true simultaneously. -/
theorem padToggle_touches_only_requested_flag (pads : List Rustapp.PadData)
    (i : ℕ) (ty : Rustapp.ToggleType) :
    (Rustapp.handlePadToggle pads i ty).length = pads.length ∧
    (∀ (k : ℕ) (q : Rustapp.PadData), pads[k]? = some q → q.id ≠ i →
        (Rustapp.handlePadToggle pads i ty)[k]? = some q) ∧
    (∀ (k : ℕ) (q : Rustapp.PadData), pads[k]? = some q → q.id = i →
        ((Rustapp.handlePadToggle pads i ty)[k]?.map (fun q' =>
            (q'.id, q'.label, q'.filePath, q'.waveformPeaks, q'.duration,
             q'.startPoint, q'.endPoint, q'.isActive))
          = some (q.id, q.label, q.filePath, q.waveformPeaks, q.duration,
             q.startPoint, q.endPoint, q.isActive)) ∧
        (ty = Rustapp.ToggleType.mute →
          (Rustapp.handlePadToggle pads i ty)[k]?.map (fun q' =>
              (q'.isMuted, q'.isSolo)) = some (!q.isMuted, q.isSolo)) ∧
        (ty = Rustapp.ToggleType.solo →
          (Rustapp.handlePadToggle pads i ty)[k]?.map (fun q' =>
              (q'.isMuted, q'.isSolo)) = some (q.isMuted, !q.isSolo))) ∧
    ((Rustapp.handlePadToggle (Rustapp.handlePadToggle [Rustapp.samplePad] 0
          Rustapp.ToggleType.mute) 0 Rustapp.ToggleType.solo).map
        (fun q => (q.isMuted, q.isSolo)) = [(true, true)]) := by
  refine ⟨by simp [Rustapp.handlePadToggle], ?_, ?_, by rfl⟩
  · intro k q hq hqid
    simp [Rustapp.handlePadToggle, List.getElem?_map, hq, hqid]
  · intro k q hq hqid
    refine ⟨?_, ?_, ?_⟩
    · simp [Rustapp.handlePadToggle, List.getElem?_map, hq, hqid]
    · intro hty
      subst hty
      simp [Rustapp.handlePadToggle, List.getElem?_map, hq, hqid]
    · intro hty
      subst hty
      simp [Rustapp.handlePadToggle, List.getElem?_map, hq, hqid]

/-- Witness for claim C8 at a concrete pad list. -/
theorem padToggle_touches_only_requested_flag_witness :
    ([Rustapp.samplePad][0]? = some Rustapp.samplePad) ∧
    ((Rustapp.handlePadToggle [Rustapp.samplePad] 0
        Rustapp.ToggleType.mute)[0]?.map (fun q' => (q'.isMuted, q'.isSolo))
      = some (!Rustapp.samplePad.isMuted, Rustapp.samplePad.isSolo)) :=
  ⟨rfl, (((padToggle_touches_only_requested_flag [Rustapp.samplePad] 0
      Rustapp.ToggleType.mute).2.2.1 0 Rustapp.samplePad rfl rfl).2.1 rfl)⟩

end Osmp
